import Mathlib

/-!
Verification development for the CLARA loan-eligibility pipeline.

The definitions below are shallow embeddings of the Python source:

* `Clara.Chain`   — the orchestrator loop `LoanEligibilityChain._call`
  (clara_agents_pipeline.py, lines 99-160), modelled as a fuel-indexed
  small-step interpreter over an explicit state record.  The evaluator's
  verdict actions are an oracle `verdicts : Nat → String` giving the
  `action` string of the n-th evaluator invocation.
* `Clara.decide`  — the decision stage (agents/decision_agent.py).
* further sections embed the response normalizers and the behavioural /
  risk feature code.

State components that the loop never branches on (the chat memory, the
ledgers carried inside the state dict, the textual content of agent
outputs) are not represented; the instrumentation counters
(`evalCalls`, `behavioralCalls`, `decisionCalls`) record how many times
each stage ran, which the Python code realizes by actually invoking the
stage agents.
-/

namespace Clara

/-- The value of the `current_step` key of the pipeline state. -/
inductive Step where
  | behavioral : Step
  | decision : Step
  | evaluator : Step
deriving DecidableEq, Repr

/-- The orchestrator's working state: the `retry_count` and `current_step`
keys of the Python state dict, plus counters of how many times each stage
agent has been invoked so far. -/
structure ChainState where
  retry_count : Nat
  current_step : Step
  evalCalls : Nat
  behavioralCalls : Nat
  decisionCalls : Nat
deriving DecidableEq, Repr

/-- The state initialized at the top of `_call`: retry_count 0,
current_step "behavioral", no stage invoked yet. -/
def initState : ChainState :=
  { retry_count := 0, current_step := .behavioral,
    evalCalls := 0, behavioralCalls := 0, decisionCalls := 0 }

/-- Result of one iteration of the while-loop body: either the loop
continues with an updated state, or the `approve` branch returned from
`_call` (after invoking the report agent on the given state). -/
inductive IterResult where
  | next : ChainState → IterResult
  | finished : ChainState → IterResult
deriving DecidableEq, Repr

/-- One iteration of the while-loop body of `_call` (lines 100-149).
On `current_step == "behavioral"` the behavioral agent runs and the step
becomes "decision"; on "decision" the decision agent runs and the step
becomes "evaluator"; on "evaluator" the evaluator agent runs and the
branch on `eval_action` decides: `approve` returns (report invoked),
`revise_profiles` routes to "behavioral" with `retry_count += 1`,
`revise_decision` and `revise_terms` route to "decision" with
`retry_count += 1`, and any other action falls through every branch,
leaving `retry_count` and `current_step` untouched. -/
def loopBody (verdicts : Nat → String) (st : ChainState) : IterResult :=
  match st.current_step with
  | .behavioral =>
      .next { st with behavioralCalls := st.behavioralCalls + 1,
                      current_step := .decision }
  | .decision =>
      .next { st with decisionCalls := st.decisionCalls + 1,
                      current_step := .evaluator }
  | .evaluator =>
      let a := verdicts st.evalCalls
      let st1 : ChainState := { st with evalCalls := st.evalCalls + 1 }
      if a = "approve" then
        .finished st1
      else if a = "revise_profiles" then
        .next { st1 with current_step := .behavioral,
                         retry_count := st1.retry_count + 1 }
      else if a = "revise_decision" then
        .next { st1 with current_step := .decision,
                         retry_count := st1.retry_count + 1 }
      else if a = "revise_terms" then
        .next { st1 with current_step := .decision,
                         retry_count := st1.retry_count + 1 }
      else
        .next st1

/-- Outcome of running `_call`: `report st viaApprove` means the report
agent was invoked on state `st` (`viaApprove = true` for the in-loop
`approve` branch, `false` for the fall-through after the while-loop
exits); `outOfFuel` means the given iteration budget was exhausted with
the loop still running. -/
inductive RunResult where
  | report : ChainState → Bool → RunResult
  | outOfFuel : ChainState → RunResult
deriving DecidableEq, Repr

/-- The while-loop of `_call`, lines 99-151: while
`retry_count <= max_retries` run `loopBody`; when the condition fails,
invoke the report agent on the last available state.  `fuel` bounds the
number of loop iterations only so that the interpreter is a total
function; the Python loop has no such bound. -/
def runChain (maxRetries : Nat) (verdicts : Nat → String) :
    Nat → ChainState → RunResult
  | 0, st => .outOfFuel st
  | fuel + 1, st =>
      if st.retry_count ≤ maxRetries then
        match loopBody verdicts st with
        | .next st1 => runChain maxRetries verdicts fuel st1
        | .finished st1 => .report st1 true
      else
        .report st false

/-- The set of recognized non-approve evaluator actions (the three
explicit `elif` branches of lines 136-149). -/
def reviseActions : List String :=
  ["revise_profiles", "revise_decision", "revise_terms"]

/-- A verdict oracle that always answers `reject`, an action outside the
recognized set; used to exercise the fall-through of lines 116-149. -/
def rejectOracle : Nat → String := fun _ => "reject"

/-- A verdict oracle that always answers `escalate`, another
unrecognized action. -/
def escalateOracle : Nat → String := fun _ => "escalate"

/-- A Python value as passed between the agents: None, bool, int,
string, list or dict (dicts as insertion-ordered association lists,
matching Python 3 dict semantics).  Float payloads do not occur in the
values any claim inspects, so numbers are carried as integers here;
the feature code uses ℚ directly. -/
inductive PyVal where
  | pyNull : PyVal
  | pyBool : Bool → PyVal
  | pyInt : Int → PyVal
  | pyStr : String → PyVal
  | pyList : List PyVal → PyVal
  | pyDict : List (String × PyVal) → PyVal
deriving Repr

/-- The external numeric services the decision stage could delegate to
(the risk/interest scorer of risk_agent.py and the vector-store
similarity retriever).  The embedding of a stage returns the list of
such calls it performs, in order. -/
inductive ExternalCall where
  | riskScorer : ExternalCall
  | similarityRetriever : ExternalCall
deriving DecidableEq, Repr

/-- The record returned by the decision stage. -/
structure DecisionRecord where
  decision : String
  interest_rate : ℚ
  term : Nat
  reason : String
  risk_score : ℚ
deriving DecidableEq, Repr

/-- The decision stage `decide` of agents/decision_agent.py, lines
13-15: the body is a single return of a literal dict, so the embedding
returns that record together with the (empty) list of external calls it
makes. -/
def decide (loan_data user_features behavioural_profiles : PyVal)
    (evaluator_comments : Option PyVal) : DecisionRecord × List ExternalCall :=
  (⟨"approved", 12/100, 36,
    "7 similar examples in the DB that the loans were approved and they did not default",
    3/10⟩, [])

/-! ### Response normalizers (utils.py and agent/utils.py)

The pipeline's agent modules (agents/behavioural_agent.py,
evaluator_agent.py, decision_agent.py) import `normalize_json` from
utils.py, which only attempts a strict `json.loads` before falling back
to the raw-text wrapper.  The Streamlit app (agent/clara_app.py)
imports the richer `normalize_json` of agent/utils.py, which adds the
fenced-block and balanced-region strategies.  Both are embedded below.
`json.loads` is embedded by a recursive-descent parser over the JSON
grammar fragment that the values of interest inhabit: objects, arrays,
strings with the single-character escapes, integers, true/false/null.
Fraction/exponent numerals, `\u` escapes and duplicate object keys do
not occur in any input a theorem below evaluates, so their Python
behavior is left unmodelled (the parser rejects them). -/

/-- Whitespace of Python's `str.strip` and of the regex class `\s` for
ASCII text: space, tab, newline, carriage return, form feed, vertical
tab. -/
def isPyWs (c : Char) : Bool :=
  c = ' ' || c = '\t' || c = '\n' || c = '\r' ||
  c = Char.ofNat 12 || c = Char.ofNat 11

/-- Strip leading and trailing whitespace from a character list. -/
def pyStripList (cs : List Char) : List Char :=
  ((cs.dropWhile isPyWs).reverse.dropWhile isPyWs).reverse

/-- Python `str.strip()`. -/
def pyStrip (s : String) : String := String.mk (pyStripList s.toList)

/-- The whitespace `json.loads` skips between tokens. -/
def isJsonWs (c : Char) : Bool :=
  c = ' ' || c = '\t' || c = '\n' || c = '\r'

/-- Skip inter-token JSON whitespace. -/
def skipJsonWs (cs : List Char) : List Char := cs.dropWhile isJsonWs

/-- Parse the body of a JSON string literal (after the opening quote),
handling the one-character escapes; returns the decoded string and the
remaining input. -/
def parseStringBody : List Char → List Char → Option (String × List Char)
  | [], _ => none
  | '\\' :: e :: rest, acc =>
      if e = '"' then parseStringBody rest (acc ++ ['"'])
      else if e = '\\' then parseStringBody rest (acc ++ ['\\'])
      else if e = '/' then parseStringBody rest (acc ++ ['/'])
      else if e = 'n' then parseStringBody rest (acc ++ ['\n'])
      else if e = 't' then parseStringBody rest (acc ++ ['\t'])
      else if e = 'r' then parseStringBody rest (acc ++ ['\r'])
      else if e = 'b' then parseStringBody rest (acc ++ [Char.ofNat 8])
      else if e = 'f' then parseStringBody rest (acc ++ [Char.ofNat 12])
      else none
  | '"' :: rest, acc => some (String.mk acc, rest)
  | c :: rest, acc => parseStringBody rest (acc ++ [c])

/-- Decimal digits to a natural number. -/
def digitsToNat (ds : List Char) : Nat :=
  ds.foldl (fun a c => a * 10 + (c.toNat - 48)) 0

/-- Parse a JSON integer numeral (fractions and exponents rejected; see
the section comment). -/
def parseJsonNumber (cs : List Char) : Option (PyVal × List Char) :=
  let p := match cs with
    | '-' :: r => (true, r)
    | _ => (false, cs)
  let ds := p.2.takeWhile Char.isDigit
  let rest := p.2.dropWhile Char.isDigit
  if ds.isEmpty then none
  else
    match rest with
    | '.' :: _ => none
    | 'e' :: _ => none
    | 'E' :: _ => none
    | _ =>
        let n := digitsToNat ds
        some (.pyInt (if p.1 then -(n : Int) else (n : Int)), rest)

mutual

/-- Parse one JSON value; `fuel` bounds the recursion depth (chosen
large enough in `jsonLoads`). -/
def parseJsonValue : Nat → List Char → Option (PyVal × List Char)
  | 0, _ => none
  | fuel + 1, cs =>
      match skipJsonWs cs with
      | 'n' :: 'u' :: 'l' :: 'l' :: rest => some (.pyNull, rest)
      | 't' :: 'r' :: 'u' :: 'e' :: rest => some (.pyBool true, rest)
      | 'f' :: 'a' :: 'l' :: 's' :: 'e' :: rest => some (.pyBool false, rest)
      | '"' :: rest =>
          match parseStringBody rest [] with
          | some (s, r) => some (.pyStr s, r)
          | none => none
      | '[' :: rest =>
          match skipJsonWs rest with
          | ']' :: r2 => some (.pyList [], r2)
          | _ => parseJsonItems fuel rest []
      | '{' :: rest =>
          match skipJsonWs rest with
          | '}' :: r2 => some (.pyDict [], r2)
          | _ => parseJsonMembers fuel rest []
      | c :: rest =>
          if c = '-' || c.isDigit then parseJsonNumber (c :: rest) else none
      | [] => none

/-- Parse the comma-separated items of a non-empty JSON array. -/
def parseJsonItems : Nat → List Char → List PyVal → Option (PyVal × List Char)
  | 0, _, _ => none
  | fuel + 1, cs, acc =>
      match parseJsonValue fuel cs with
      | none => none
      | some (v, r) =>
          match skipJsonWs r with
          | ',' :: r2 => parseJsonItems fuel r2 (acc ++ [v])
          | ']' :: r2 => some (.pyList (acc ++ [v]), r2)
          | _ => none

/-- Parse the comma-separated members of a non-empty JSON object. -/
def parseJsonMembers : Nat → List Char → List (String × PyVal) →
    Option (PyVal × List Char)
  | 0, _, _ => none
  | fuel + 1, cs, acc =>
      match skipJsonWs cs with
      | '"' :: rest =>
          match parseStringBody rest [] with
          | none => none
          | some (k, r) =>
              match skipJsonWs r with
              | ':' :: r2 =>
                  match parseJsonValue fuel r2 with
                  | none => none
                  | some (v, r3) =>
                      match skipJsonWs r3 with
                      | ',' :: r4 => parseJsonMembers fuel r4 (acc ++ [(k, v)])
                      | '}' :: r4 => some (.pyDict (acc ++ [(k, v)]), r4)
                      | _ => none
              | _ => none
      | _ => none

end

/-- Python's `json.loads`: parse one value and require only whitespace
after it. -/
def jsonLoads (s : String) : Option PyVal :=
  match parseJsonValue (s.length + 2) s.toList with
  | some (v, rest) => if (skipJsonWs rest).isEmpty then some v else none
  | none => none

/-- Scan to the first triple-backtick fence; returns the characters
after it. -/
def dropToFence : List Char → Option (List Char)
  | '`' :: '`' :: '`' :: rest => some rest
  | _ :: cs => dropToFence cs
  | [] => none

/-- Split at the next triple-backtick fence: the characters before it
and the characters after it. -/
def splitAtFence : List Char → Option (List Char × List Char)
  | '`' :: '`' :: '`' :: rest => some ([], rest)
  | c :: cs =>
      match splitAtFence cs with
      | some p => some (c :: p.1, p.2)
      | none => none
  | [] => none

/-- Consume `tag` case-insensitively as a literal, returning the
remainder on a match. -/
def stripIfCaseless : List Char → List Char → Option (List Char)
  | [], cs => some cs
  | t :: ts, c :: cs =>
      if c.toLower = t.toLower then stripIfCaseless ts cs else none
  | _ :: _, [] => none

/-- The optional language tag of the fence regex, alternatives tried in
the regex's order: json, javascript, js, ts, python (case-insensitive,
no word boundary, matching Python's `(?:json|javascript|js|ts|python)?`). -/
def stripLangTag (cs : List Char) : List Char :=
  match stripIfCaseless "json".toList cs with
  | some r => r
  | none =>
    match stripIfCaseless "javascript".toList cs with
    | some r => r
    | none =>
      match stripIfCaseless "js".toList cs with
      | some r => r
      | none =>
        match stripIfCaseless "ts".toList cs with
        | some r => r
        | none =>
          match stripIfCaseless "python".toList cs with
          | some r => r
          | none => cs

/-- The successive non-overlapping matches of the fence regex of
agent/utils.py: for each opening fence, strip the optional language tag,
capture lazily up to the next fence, and trim the surrounding `\s*`
(realized as a strip of the captured region).  A dangling opening fence
with no closing fence yields no further matches. -/
def fenceBlocks : Nat → List Char → List String
  | 0, _ => []
  | fuel + 1, cs =>
      match dropToFence cs with
      | none => []
      | some afterOpen =>
          match splitAtFence (stripLangTag afterOpen) with
          | none => []
          | some p => String.mk (pyStripList p.1) :: fenceBlocks fuel p.2

/-- The `_parse_from_fences` helper of agent/utils.py: try `json.loads`
on each fenced block in order, returning the first success. -/
def parseFromFences (s : String) : Option PyVal :=
  (fenceBlocks (s.length + 1) s.toList).findSome? jsonLoads

/-- The scanning loop of `_parse_first_balanced_json` (agent/utils.py
lines 50-75), started at the first opening character: track string
state, escapes and nesting depth; when the depth returns to zero,
return the candidate region scanned so far. -/
def balancedScan (opening closing : Char) :
    List Char → Nat → Bool → Bool → List Char → Option (List Char)
  | [], _, _, _, _ => none
  | c :: rest, depth, inStr, esc, acc =>
      if inStr then
        if esc then balancedScan opening closing rest depth true false (acc ++ [c])
        else if c = '\\' then
          balancedScan opening closing rest depth true true (acc ++ [c])
        else if c = '"' then
          balancedScan opening closing rest depth false false (acc ++ [c])
        else balancedScan opening closing rest depth true false (acc ++ [c])
      else
        if c = '"' then
          balancedScan opening closing rest depth true false (acc ++ [c])
        else if c = opening then
          balancedScan opening closing rest (depth + 1) false false (acc ++ [c])
        else if c = closing then
          if depth = 1 then some (acc ++ [c])
          else balancedScan opening closing rest (depth - 1) false false (acc ++ [c])
        else balancedScan opening closing rest depth false false (acc ++ [c])

/-- The `_parse_first_balanced_json` helper of agent/utils.py: strip
the input, locate the earliest opening brace or bracket, scan its
balanced region (respecting string-quoted braces/brackets), and parse
the candidate; a parse failure of the candidate aborts (the source
returns None rather than scanning further). -/
def parseFirstBalanced (s : String) : Option PyVal :=
  let t := pyStripList s.toList
  let u := t.dropWhile (fun c => !(c = '{' || c = '['))
  match u with
  | [] => none
  | c :: _ =>
      let closing := if c = '{' then '}' else ']'
      match balancedScan c closing u 0 false false [] with
      | none => none
      | some cand => jsonLoads (String.mk cand)

/-- The `normalize_json` of utils.py (imported by the pipeline's agent
modules): pass dicts and lists through unchanged; on a string try a
strict `json.loads` and fall back to the raw-text wrapper; other
(JSON-serializable scalar) values round-trip through
`json.dumps`/`json.loads` unchanged. -/
def normalize_json (obj : PyVal) : PyVal :=
  match obj with
  | .pyDict _ => obj
  | .pyList _ => obj
  | .pyStr s =>
      match jsonLoads s with
      | some v => v
      | none => .pyDict [("raw_text", .pyStr s)]
  | v => v

/-- The `normalize_json` of agent/utils.py (imported by the Streamlit
app): pass dicts and lists through; on a string, strip it, then try in
order a strict parse, the fenced blocks, and the first balanced region,
falling back to the raw-text wrapper around the original (unstripped)
string; other scalar values round-trip unchanged. -/
def normalize_json_agent (obj : PyVal) : PyVal :=
  match obj with
  | .pyDict _ => obj
  | .pyList _ => obj
  | .pyStr s =>
      let t := pyStrip s
      match jsonLoads t with
      | some v => v
      | none =>
          match parseFromFences t with
          | some v => v
          | none =>
              match parseFirstBalanced t with
              | some v => v
              | none => .pyDict [("raw_text", .pyStr s)]
  | v => v

/-- Whether a Python value is a dict or a list, the pass-through case
of both normalizers. -/
def isDictOrList : PyVal → Bool
  | .pyDict _ => true
  | .pyList _ => true
  | _ => false

/-- The fenced-output example of the spec: prose around a ```json fence
holding an object. -/
def fencedExample : String :=
  "prefix ```json\n\x7b\"a\":1\x7d\n``` suffix"

/-! ### Behavioural feature extraction (agents/behavioural_agent.py)

`preprocess_user` is embedded column by column.  Dates are abstracted
to calendar-month serial numbers (the code only ever groups at month
granularity: `dt.to_period("M")` and `pd.Grouper(freq="MS")` induce the
same partition), and the original DataFrame row index is kept on each
row because line 57 groups the card ledger by `bank_df['date']`, a
Series that pandas aligns to the card frame BY INDEX.  Row order within
a month stands in for intra-month date order (it decides the "last"
balance).  pandas NaN is `Option.none`; reductions skip NaN the way
pandas `mean`/`sum` do.  A `pd.Grouper(freq="MS")` groupby emits a row
for every month between the minimum and maximum observed month, so the
kept-month axis is the full serial range of the filtered bank ledger.

Unmodelled, because no claim touches them and no theorem below
evaluates them: float rounding (exact ℚ arithmetic is used), the
std/trend features, signed infinities from nonzero/zero divisions
(every division the claims touch goes through `.replace(0, np.nan)` or
has a zero numerator whenever the denominator is zero), duplicate
DataFrame index values, and category names that collide with the fixed
column names (pandas would suffix such columns on merge; the standard
category names of the data generator never collide). -/

/-- One row of the bank ledger CSV: the original frame index, the
calendar month of the parsed date, and the numeric/text payload. -/
structure BankRow where
  idx : Nat
  month : Nat
  income : ℚ
  expense : ℚ
  balance : ℚ
  desc : String
deriving Repr, DecidableEq

/-- One row of the card ledger CSV. -/
structure CardRow where
  idx : Nat
  month : Nat
  category : String
  amount_paid : ℚ
deriving Repr, DecidableEq

/-- Insert into a ≤-sorted list (stable: equal keys keep earlier
elements first). -/
def insertByLe (le : α → α → Bool) (x : α) : List α → List α
  | [] => [x]
  | y :: ys => if le y x then y :: insertByLe le x ys else x :: y :: ys

/-- Insertion sort by a boolean ≤. -/
def sortByLe (le : α → α → Bool) (l : List α) : List α :=
  l.foldr (insertByLe le) []

/-- Case-sensitive substring containment, Python's `pat in hay`. -/
def listContainsSub (hay pat : List Char) : Bool :=
  hay.tails.any (fun t => pat.isPrefixOf t)

/-- Python's `pat in hay` on strings. -/
def strContains (hay pat : String) : Bool :=
  listContainsSub hay.toList pat.toList

/-- Case-insensitive substring containment,
`Series.str.contains(pat, case=False)` for a literal pattern. -/
def strContainsCI (hay pat : String) : Bool :=
  listContainsSub (hay.toList.map Char.toLower) (pat.toList.map Char.toLower)

/-- Lexicographic code-point ≤ on character lists (the order Python
and pandas sort strings by). -/
def charListLe : List Char → List Char → Bool
  | [], _ => true
  | _ :: _, [] => false
  | a :: as, b :: bs =>
      if a.toNat < b.toNat then true
      else if b.toNat < a.toNat then false
      else charListLe as bs

/-- Lexicographic ≤ on strings. -/
def strLeB (a b : String) : Bool := charListLe a.toList b.toList

/-- pandas column mean with NaN skipped; the mean of an all-NaN (or
empty) column is NaN. -/
def rqMean (l : List (Option ℚ)) : Option ℚ :=
  let xs := l.filterMap id
  if xs.isEmpty then none else some (xs.sum / (xs.length : ℚ))

/-- The number of bank transactions in month `m`
(`bank_df.groupby("month").size()`). -/
def countMonth (bank : List BankRow) (m : Nat) : Nat :=
  (bank.filter (fun r => r.month == m)).length

/-- The distinct months of the bank ledger in ascending order (the
index of `month_counts` before sorting by count). -/
def monthsSorted (bank : List BankRow) : List Nat :=
  sortByLe (fun a b => Decidable.decide (a ≤ b)) (bank.map (·.month)).dedup

/-- The (at most) 3 months with the most bank transactions: sort the
counts descending and take the first 3 index entries (lines 26-28).
Ties among equal counts keep the ascending-month order here; the
source's unstable quicksort leaves ties unspecified (spec open
question), and no claim depends on a tie. -/
def topMonths (bank : List BankRow) : List Nat :=
  (sortByLe (fun a b => Decidable.decide (countMonth bank b ≤ countMonth bank a))
    (monthsSorted bank)).take 3

/-- The bank ledger filtered to the top months (line 29); original
index values survive the filter. -/
def bankFiltered (bank : List BankRow) : List BankRow :=
  bank.filter (fun r => (topMonths bank).contains r.month)

/-- The month axis of the merged monthly frame: every month between
the minimum and maximum month of the filtered bank ledger
(`pd.Grouper(freq="MS")` bins, line 32). -/
def keptMonths (bank : List BankRow) : List Nat :=
  let ms := (bankFiltered bank).map (·.month)
  match ms.min?, ms.max? with
  | some lo, some hi => List.range' lo (hi - lo + 1)
  | _, _ => []

/-- Monthly income: sum over the filtered bank rows of the month. -/
def incomeAt (bank : List BankRow) (m : Nat) : ℚ :=
  (((bankFiltered bank).filter (fun r => r.month == m)).map (·.income)).sum

/-- Monthly expense. -/
def expenseAt (bank : List BankRow) (m : Nat) : ℚ :=
  (((bankFiltered bank).filter (fun r => r.month == m)).map (·.expense)).sum

/-- Monthly balance: the last balance observed in the month (in row
order); NaN for a month with no bank rows. -/
def balanceLastAt (bank : List BankRow) (m : Nat) : Option ℚ :=
  (((bankFiltered bank).filter (fun r => r.month == m)).getLast?).map (·.balance)

/-- The distinct card categories, ascending (the column order
`unstack` produces, line 39). -/
def cardCats (card : List CardRow) : List String :=
  sortByLe strLeB (card.map (·.category)).dedup

/-- Monthly spend of one category (missing month/category pairs are 0,
`unstack(fill_value=0)` plus the `fillna(0)` after the left merge). -/
def cardSpend (card : List CardRow) (m : Nat) (c : String) : ℚ :=
  ((card.filter (fun r => r.month == m && r.category == c)).map (·.amount_paid)).sum

/-- Monthly `total_card_spend`: the row-wise sum across category
columns, i.e. the sum of all card amounts of the month (line 40). -/
def totalCardSpend (card : List CardRow) (m : Nat) : ℚ :=
  ((card.filter (fun r => r.month == m)).map (·.amount_paid)).sum

/-- Monthly `net_savings = income - expense` (line 43). -/
def netSavingsAt (bank : List BankRow) (m : Nat) : ℚ :=
  incomeAt bank m - expenseAt bank m

/-- Monthly `savings_rate = net_savings / income.replace(0, NaN)`
(line 44): NaN whenever the month's income is 0. -/
def savingsRateAt (bank : List BankRow) (m : Nat) : Option ℚ :=
  if incomeAt bank m = 0 then none
  else some (netSavingsAt bank m / incomeAt bank m)

/-- Monthly overdraft flag (line 45); the balance seen here is the one
after the line-42 `fillna(0)`. -/
def overdraftAt (bank : List BankRow) (m : Nat) : ℚ :=
  if (balanceLastAt bank m).getD 0 < 0 then 1 else 0

/-- Monthly per-category share (line 50):
`cat / total_card_spend.replace(0, NaN)` — NaN whenever the month's
total card spend is 0. -/
def catShareAt (card : List CardRow) (m : Nat) (c : String) : Option ℚ :=
  if totalCardSpend card m = 0 then none
  else some (cardSpend card m c / totalCardSpend card m)

/-- Monthly credit-card-payment total (lines 52-53): sum of `expense`
over the filtered bank rows whose description contains
"Credit Card Payment" case-insensitively; months without such rows get
0 from the left merge's `fillna(0)`. -/
def ccPaymentAt (bank : List BankRow) (m : Nat) : ℚ :=
  (((bankFiltered bank).filter
      (fun r => r.month == m && strContainsCI r.desc "Credit Card Payment")).map
    (·.expense)).sum

/-- The `savings_rate` column after line 54: the merge with the
cc-payment Series is followed by `fillna(0)` on the whole frame, which
replaces the NaN of any zero-income month by 0. -/
def savingsRateLine54 (bank : List BankRow) (m : Nat) : Option ℚ :=
  some ((savingsRateAt bank m).getD 0)

/-- A category-share column after line 54: the whole-frame `fillna(0)`
replaces the NaN of any zero-spend month by 0. -/
def catShareLine54 (card : List CardRow) (m : Nat) (c : String) : Option ℚ :=
  some ((catShareAt card m c).getD 0)

/-- Monthly `cc_payment_ratio` (line 55), computed after the fillna:
its NaN (zero total card spend) survives into the frame. -/
def ccPaymentRatioAt (bank : List BankRow) (card : List CardRow) (m : Nat) :
    Option ℚ :=
  if totalCardSpend card m = 0 then none
  else some (ccPaymentAt bank m / totalCardSpend card m)

/-! #### Lines 57-64: `last3_category_shares`

Line 57 reads `card_df.groupby([bank_df['date'].dt.to_period("M"),
"category"])`: the grouping key is the month Series OF THE FILTERED
BANK FRAME, which pandas aligns to `card_df` by index.  A card row
whose index carries bank month `m` is grouped under `m`; a card row
whose index does not occur in the filtered bank frame gets a NaN key
and is dropped by the groupby. -/

/-- The bank month that pandas index-alignment assigns to card row
index `i`: the month of the filtered bank row with the same index, if
any. -/
def alignedMonth (bank : List BankRow) (i : Nat) : Option Nat :=
  ((bankFiltered bank).find? (fun r => r.idx == i)).map (·.month)

/-- The month axis of the (bank-aligned) `monthly_totals`, ascending. -/
def alignedShareMonths (bank : List BankRow) (card : List CardRow) : List Nat :=
  sortByLe (fun a b => Decidable.decide (a ≤ b))
    (card.filterMap (fun r => alignedMonth bank r.idx)).dedup

/-- The categories of `monthly_totals` (card rows surviving the
alignment), ascending. -/
def alignedShareCats (bank : List BankRow) (card : List CardRow) : List String :=
  sortByLe strLeB
    (card.filterMap
      (fun r => (alignedMonth bank r.idx).map (fun _ => r.category))).dedup

/-- One cell of `monthly_totals`: card amounts grouped under the
bank-aligned month. -/
def alignedTotalsEntry (bank : List BankRow) (card : List CardRow)
    (m : Nat) (c : String) : ℚ :=
  ((card.filter
      (fun r => alignedMonth bank r.idx == some m && r.category == c)).map
    (·.amount_paid)).sum

/-- A row sum of `monthly_totals` (`monthly_totals.sum(axis=1)`). -/
def alignedRowSum (bank : List BankRow) (card : List CardRow) (m : Nat) : ℚ :=
  ((card.filter (fun r => alignedMonth bank r.idx == some m)).map
    (·.amount_paid)).sum

/-- One cell of `monthly_shares` (line 58): the row-normalized totals;
an all-zero row (only possible with zero amounts) is 0/0 = NaN. -/
def alignedShare (bank : List BankRow) (card : List CardRow)
    (m : Nat) (c : String) : Option ℚ :=
  if alignedRowSum bank card m = 0 then none
  else some (alignedTotalsEntry bank card m c / alignedRowSum bank card m)

/-- The last `n` elements of a list (`DataFrame.tail`). -/
def lastN (n : Nat) (l : List α) : List α := l.drop (l.length - n)

/-- Lines 60-64: average the share rows of the last 3 months when at
least 3 months exist, else of all months, into a category→share
mapping (`.mean().to_dict()`, column order = ascending categories). -/
def last3_category_shares (bank : List BankRow) (card : List CardRow) :
    List (String × Option ℚ) :=
  let ms := alignedShareMonths bank card
  let sel := if 3 ≤ ms.length then lastN 3 ms else ms
  (alignedShareCats bank card).map
    (fun c => (c, rqMean (sel.map (fun m => alignedShare bank card m c))))

/-- The computation the claim describes (comparator for C6, following
the claim's words): group the card ledger's own records by THEIR
calendar month, independent of the bank ledger and its top-3
filtering, normalize per month, and average the last 3 months. -/
def last3_category_shares_claimed (card : List CardRow) :
    List (String × Option ℚ) :=
  let ms := sortByLe (fun a b => Decidable.decide (a ≤ b)) (card.map (·.month)).dedup
  let sel := if 3 ≤ ms.length then lastN 3 ms else ms
  (cardCats card).map
    (fun c => (c, rqMean (sel.map (fun m =>
      if totalCardSpend card m = 0 then none
      else some (cardSpend card m c / totalCardSpend card m)))))

/-! #### Lines 66-78: scalar features -/

/-- The column names of the merged frame as of line 73, in frame
order: the bank aggregate columns, the card category columns, the
derived columns of lines 40-45, the per-category share columns of
line 50, and the cc-payment columns of lines 54-55. -/
def dfColumns (cats : List String) : List String :=
  ["date", "income", "expense", "balance"] ++ cats ++
    ["total_card_spend", "net_savings", "savings_rate", "overdraft"] ++
    cats.map (fun c => c ++ "_share") ++ ["cc_payment", "cc_payment_ratio"]

/-- The column filter of line 73: any column whose NAME contains
"Entertainment", "Travel" or "Dining" as a substring. -/
def matchesDiscretionary (c : String) : Bool :=
  strContains c "Entertainment" || strContains c "Travel" ||
    strContains c "Dining"

/-- The values of one column of the merged frame as of line 73, over
the kept months (NaN as `none`; after the line-54 fillna only
`cc_payment_ratio` can still hold NaN). -/
def columnValues (bank : List BankRow) (card : List CardRow) (c : String) :
    List (Option ℚ) :=
  let ms := keptMonths bank
  if c = "date" then ms.map (fun m => some (m : ℚ))
  else if c = "income" then ms.map (fun m => some (incomeAt bank m))
  else if c = "expense" then ms.map (fun m => some (expenseAt bank m))
  else if c = "balance" then ms.map (fun m => some ((balanceLastAt bank m).getD 0))
  else if c = "total_card_spend" then ms.map (fun m => some (totalCardSpend card m))
  else if c = "net_savings" then ms.map (fun m => some (netSavingsAt bank m))
  else if c = "savings_rate" then ms.map (savingsRateLine54 bank)
  else if c = "overdraft" then ms.map (fun m => some (overdraftAt bank m))
  else if c = "cc_payment" then ms.map (fun m => some (ccPaymentAt bank m))
  else if c = "cc_payment_ratio" then ms.map (ccPaymentRatioAt bank card)
  else
    match (cardCats card).find? (fun k => k == c) with
    | some k => ms.map (fun m => some (cardSpend card m k))
    | none =>
        match (cardCats card).find? (fun k => k ++ "_share" == c) with
        | some k => ms.map (fun m => catShareLine54 card m k)
        | none => []

/-- A pandas column sum (NaN skipped; empty sum is 0). -/
def colSum (bank : List BankRow) (card : List CardRow) (c : String) : ℚ :=
  ((columnValues bank card c).filterMap id).sum

/-- The `discretionary_share` entry of the features dict (line 73):
the double sum of the name-filtered columns over the sum of
`total_card_spend`.  (The guard `if "total_card_spend" in df` of the
source is always true: the column exists even for an empty card
ledger.)  A zero denominator gives NaN (the numerator's matched
columns are all zero then). -/
def discretionary_share (bank : List BankRow) (card : List CardRow) :
    Option ℚ :=
  let total := colSum bank card "total_card_spend"
  if total = 0 then none
  else
    some ((((dfColumns (cardCats card)).filter matchesDiscretionary).map
      (colSum bank card)).sum / total)

/-- The value the claim describes (comparator for C8, following the
claim's words): only the Entertainment, Travel and Dining
category-spend columns contribute to the numerator. -/
def discretionary_share_claimed (bank : List BankRow) (card : List CardRow) :
    Option ℚ :=
  let total := colSum bank card "total_card_spend"
  if total = 0 then none
  else
    some ((((cardCats card).filter
      (fun c => c == "Entertainment" || c == "Travel" || c == "Dining")).map
      (colSum bank card)).sum / total)

/-! #### Concrete ledgers used by the theorems below -/

/-- A bank ledger with one transaction in each of two consecutive
months (both months survive the top-3 filter). -/
def alignBank : List BankRow :=
  [⟨0, 1, 100, 50, 10, ""⟩, ⟨1, 2, 100, 50, 10, ""⟩]

/-- A card ledger whose two purchases are both dated in the second
month, with distinct categories and different amounts; row indices 0
and 1 coincide with bank rows dated in months 1 and 2. -/
def alignCard : List CardRow :=
  [⟨0, 2, "A", 100⟩, ⟨1, 2, "B", 300⟩]

/-- A one-month bank ledger. -/
def discBank : List BankRow := [⟨0, 1, 100, 50, 10, ""⟩]

/-- A card ledger with one Entertainment and one Groceries purchase in
that month. -/
def discCard : List CardRow :=
  [⟨0, 1, "Entertainment", 100⟩, ⟨1, 1, "Groceries", 100⟩]

/-- A one-month card ledger covering the four standard categories. -/
def discCardFull : List CardRow :=
  [⟨0, 1, "Dining", 10⟩, ⟨1, 1, "Entertainment", 20⟩,
   ⟨2, 1, "Groceries", 30⟩, ⟨3, 1, "Travel", 40⟩]

/-- A bank ledger whose single kept month has income 0. -/
def zeroIncomeBank : List BankRow := [⟨0, 1, 0, 50, 100, ""⟩]

/-- A card ledger whose single month has total card spend 0. -/
def zeroSpendCard : List CardRow := [⟨0, 1, "A", 0⟩]

/-! ### Risk scorer numeric imputation (risk_agent.py)

`risk_assesment` builds `df = pd.DataFrame([form_data])` — a frame
with exactly ONE row (line 49) — and line 63 fills the numeric columns
with `df[numeric_cols].median()`: the median of the inference-time
frame itself, not a stored artifact (`load_weights` loads no median;
the weights are the two models, the two tf-idf vectorizers and the
home-ownership column list).  The parse helpers and the imputation
step are embedded below; NaN is `Option.none`. -/

/-- Remove every (non-overlapping, left-to-right) occurrence of `pat`
from the character list, Python's `str.replace(pat, "")` for a
non-empty pattern; `fuel` is an upper bound on the scan length. -/
def removeAllAux (pat : List Char) : Nat → List Char → List Char
  | 0, cs => cs
  | fuel + 1, cs =>
      if pat.isPrefixOf cs then removeAllAux pat fuel (cs.drop pat.length)
      else
        match cs with
        | [] => []
        | c :: rest => c :: removeAllAux pat fuel rest

/-- Python's `s.replace(pat, "")`. -/
def strRemoveAll (s pat : String) : String :=
  String.mk (removeAllAux pat.toList (s.length + 1) s.toList)

/-- Python's `s.lower()` for the ASCII strings at hand. -/
def strLower (s : String) : String := String.mk (s.toList.map Char.toLower)

/-- `parse_emp_length` (lines 16-22): NaN stays NaN; a value holding
"<" means half a year; "10+" means 10; otherwise the digits of the
string, or NaN when it has none.  The input is the string rendering of
the field (`str(val)`), `none` for a NaN field. -/
def parse_emp_length (val : Option String) : Option ℚ :=
  match val with
  | none => none
  | some v =>
      if strContains v "<" then some (1/2)
      else if strContains v "10+" then some 10
      else
        let ds := v.toList.filter Char.isDigit
        if ds.isEmpty then none else some ((digitsToNat ds : ℚ))

/-- `parse_term` (lines 24-28): NaN stays NaN; otherwise lowercase,
drop "months", strip, and take the digits, NaN when there are none. -/
def parse_term (val : Option String) : Option ℚ :=
  match val with
  | none => none
  | some v =>
      let s := pyStrip (strRemoveAll (strLower v) "months")
      let ds := s.toList.filter Char.isDigit
      if ds.isEmpty then none else some ((digitsToNat ds : ℚ))

/-- The numeric columns of line 61-62 for the single application row,
after renaming, the n/a replacement and the parse helpers; `none` is a
missing or unparseable value. -/
structure RiskNumericRow where
  amountRequested : Option ℚ
  employmentLength : Option ℚ
  annualInc : Option ℚ
  dti : Option ℚ
  delinq2yrs : Option ℚ
  numActvBcTl : Option ℚ
  pubRecBankruptcies : Option ℚ
  term : Option ℚ
deriving DecidableEq, Repr

/-- pandas `Series.median()`: sort the non-NaN values; the median of
an empty (all-NaN) column is NaN; otherwise the middle element, or the
mean of the two middle elements. -/
def colMedian (l : List (Option ℚ)) : Option ℚ :=
  let xs := sortByLe (fun a b => Decidable.decide (a ≤ b)) (l.filterMap id)
  if xs.length = 0 then none
  else if xs.length % 2 = 1 then some (xs.getD (xs.length / 2) 0)
  else some ((xs.getD (xs.length / 2 - 1) 0 + xs.getD (xs.length / 2) 0) / 2)

/-- `Series.fillna(median)` for one column. -/
def fillnaMedian (col : List (Option ℚ)) : List (Option ℚ) :=
  col.map (fun v =>
    match v with
    | some x => some x
    | none => colMedian col)

/-- Line 63 applied to one column of the one-row frame. -/
def imputeColumnSingle (v : Option ℚ) : Option ℚ :=
  (fillnaMedian [v]).headD none

/-- Line 63, `df[numeric_cols] = df[numeric_cols].fillna(
df[numeric_cols].median())`, on the single-row frame: every numeric
column is filled with its own one-value median. -/
def riskImputeRow (r : RiskNumericRow) : RiskNumericRow :=
  { amountRequested := imputeColumnSingle r.amountRequested,
    employmentLength := imputeColumnSingle r.employmentLength,
    annualInc := imputeColumnSingle r.annualInc,
    dti := imputeColumnSingle r.dti,
    delinq2yrs := imputeColumnSingle r.delinq2yrs,
    numActvBcTl := imputeColumnSingle r.numActvBcTl,
    pubRecBankruptcies := imputeColumnSingle r.pubRecBankruptcies,
    term := imputeColumnSingle r.term }

/-- A concrete application row whose loan term field was the
unparseable string "unknown" (all other numeric fields present). -/
def unknownTermRow : RiskNumericRow :=
  { amountRequested := some 10000,
    employmentLength := parse_emp_length (some "10"),
    annualInc := some 120000,
    dti := some 1,
    delinq2yrs := some 0,
    numActvBcTl := some 5,
    pubRecBankruptcies := some 0,
    term := parse_term (some "unknown") }

end Clara

namespace Clara

/-! ## Theorems about the orchestrator -/

/-- Helper: one loop iteration with the while-condition true and a
continuing body. -/
theorem runChain_succ_next (maxR : Nat) (v : Nat → String) (fuel : Nat)
    (st st1 : ChainState) (hcond : st.retry_count ≤ maxR)
    (hb : loopBody v st = .next st1) :
    runChain maxR v (fuel + 1) st = runChain maxR v fuel st1 := by
  simp [runChain, hcond, hb]

/-- Helper: when the while-condition fails, the report agent is invoked
on the current state. -/
theorem runChain_exit (maxR : Nat) (v : Nat → String) (fuel : Nat)
    (st : ChainState) (hcond : ¬ st.retry_count ≤ maxR) :
    runChain maxR v (fuel + 1) st = .report st false := by
  simp [runChain, hcond]

/-- Helper: the behavioral stage's transition. -/
theorem loopBody_behavioral (v : Nat → String) (st : ChainState)
    (hstep : st.current_step = .behavioral) :
    loopBody v st = .next { st with behavioralCalls := st.behavioralCalls + 1,
                                    current_step := .decision } := by
  simp [loopBody, hstep]

/-- Helper: the decision stage's transition. -/
theorem loopBody_decision (v : Nat → String) (st : ChainState)
    (hstep : st.current_step = .decision) :
    loopBody v st = .next { st with decisionCalls := st.decisionCalls + 1,
                                    current_step := .evaluator } := by
  simp [loopBody, hstep]

/-- Helper: the evaluator transition under a `revise_profiles` verdict. -/
theorem loopBody_revise_profiles (v : Nat → String) (st : ChainState)
    (hstep : st.current_step = .evaluator)
    (ha : v st.evalCalls = "revise_profiles") :
    loopBody v st = .next { st with evalCalls := st.evalCalls + 1,
                                    retry_count := st.retry_count + 1,
                                    current_step := .behavioral } := by
  simp [loopBody, hstep, ha]

/-- Helper: the evaluator transition under a `revise_decision` verdict. -/
theorem loopBody_revise_decision (v : Nat → String) (st : ChainState)
    (hstep : st.current_step = .evaluator)
    (ha : v st.evalCalls = "revise_decision") :
    loopBody v st = .next { st with evalCalls := st.evalCalls + 1,
                                    retry_count := st.retry_count + 1,
                                    current_step := .decision } := by
  simp [loopBody, hstep, ha]

/-- Helper: the evaluator transition under a `revise_terms` verdict. -/
theorem loopBody_revise_terms (v : Nat → String) (st : ChainState)
    (hstep : st.current_step = .evaluator)
    (ha : v st.evalCalls = "revise_terms") :
    loopBody v st = .next { st with evalCalls := st.evalCalls + 1,
                                    retry_count := st.retry_count + 1,
                                    current_step := .decision } := by
  simp [loopBody, hstep, ha]

/-- Helper: from an evaluator state whose remaining retry budget is `k`
(with every verdict a recognized revise action), the loop reaches the
post-loop report after exactly `k` further evaluator invocations. -/
theorem run_revise_eval (maxRetries : Nat) (verdicts : Nat → String)
    (hv : ∀ n, verdicts n ∈ reviseActions) :
    ∀ k st, st.current_step = .evaluator →
      st.retry_count + k = maxRetries + 1 → 1 ≤ k →
      ∃ fuel stf, runChain maxRetries verdicts fuel st = .report stf false ∧
        stf.evalCalls = st.evalCalls + k ∧
        stf.retry_count = maxRetries + 1 := by
  intro k
  induction k with
  | zero => intro st _ _ hk; omega
  | succ k ih =>
    intro st hstep hcount _
    have hcond : st.retry_count ≤ maxRetries := by omega
    have hva := hv st.evalCalls
    simp only [reviseActions, List.mem_cons, List.mem_singleton,
      List.not_mem_nil, or_false] at hva
    rcases hva with ha | ha | ha
    · -- revise_profiles: go through behavioral, then decision, back to evaluator
      have hb := loopBody_revise_profiles verdicts st hstep ha
      set st1 : ChainState :=
        { st with evalCalls := st.evalCalls + 1,
                  retry_count := st.retry_count + 1,
                  current_step := .behavioral } with hst1
      rcases Nat.eq_zero_or_pos k with hk0 | hkpos
      · subst hk0
        have hfail : ¬ st1.retry_count ≤ maxRetries := by simp [hst1]; omega
        exact ⟨2, st1, by
          rw [runChain_succ_next maxRetries verdicts 1 st st1 hcond hb,
            runChain_exit maxRetries verdicts 0 st1 hfail],
          by simp [hst1], by simp [hst1]; omega⟩
      · have hb1 := loopBody_behavioral verdicts st1 (by simp [hst1])
        set st2 : ChainState :=
          { st1 with behavioralCalls := st1.behavioralCalls + 1,
                     current_step := .decision } with hst2
        have hb2 := loopBody_decision verdicts st2 (by simp [hst2])
        set st3 : ChainState :=
          { st2 with decisionCalls := st2.decisionCalls + 1,
                     current_step := .evaluator } with hst3
        obtain ⟨fuel, stf, hrun, he, hr⟩ :=
          ih st3 (by simp [hst3]) (by simp [hst3, hst2, hst1]; omega) hkpos
        refine ⟨fuel + 1 + 1 + 1, stf, ?_, ?_, hr⟩
        · rw [runChain_succ_next maxRetries verdicts (fuel + 1 + 1) st st1 hcond hb,
            runChain_succ_next maxRetries verdicts (fuel + 1) st1 st2
              (by simp [hst1]; omega) hb1,
            runChain_succ_next maxRetries verdicts fuel st2 st3
              (by simp [hst2, hst1]; omega) hb2, hrun]
        · simp [hst3, hst2, hst1] at he; omega
    · -- revise_decision: go through decision, back to evaluator
      have hb := loopBody_revise_decision verdicts st hstep ha
      set st1 : ChainState :=
        { st with evalCalls := st.evalCalls + 1,
                  retry_count := st.retry_count + 1,
                  current_step := .decision } with hst1
      rcases Nat.eq_zero_or_pos k with hk0 | hkpos
      · subst hk0
        have hfail : ¬ st1.retry_count ≤ maxRetries := by simp [hst1]; omega
        exact ⟨2, st1, by
          rw [runChain_succ_next maxRetries verdicts 1 st st1 hcond hb,
            runChain_exit maxRetries verdicts 0 st1 hfail],
          by simp [hst1], by simp [hst1]; omega⟩
      · have hb1 := loopBody_decision verdicts st1 (by simp [hst1])
        set st2 : ChainState :=
          { st1 with decisionCalls := st1.decisionCalls + 1,
                     current_step := .evaluator } with hst2
        obtain ⟨fuel, stf, hrun, he, hr⟩ :=
          ih st2 (by simp [hst2]) (by simp [hst2, hst1]; omega) hkpos
        refine ⟨fuel + 1 + 1, stf, ?_, ?_, hr⟩
        · rw [runChain_succ_next maxRetries verdicts (fuel + 1) st st1 hcond hb,
            runChain_succ_next maxRetries verdicts fuel st1 st2
              (by simp [hst1]; omega) hb1, hrun]
        · simp [hst2, hst1] at he; omega
    · -- revise_terms: identical routing to revise_decision
      have hb := loopBody_revise_terms verdicts st hstep ha
      set st1 : ChainState :=
        { st with evalCalls := st.evalCalls + 1,
                  retry_count := st.retry_count + 1,
                  current_step := .decision } with hst1
      rcases Nat.eq_zero_or_pos k with hk0 | hkpos
      · subst hk0
        have hfail : ¬ st1.retry_count ≤ maxRetries := by simp [hst1]; omega
        exact ⟨2, st1, by
          rw [runChain_succ_next maxRetries verdicts 1 st st1 hcond hb,
            runChain_exit maxRetries verdicts 0 st1 hfail],
          by simp [hst1], by simp [hst1]; omega⟩
      · have hb1 := loopBody_decision verdicts st1 (by simp [hst1])
        set st2 : ChainState :=
          { st1 with decisionCalls := st1.decisionCalls + 1,
                     current_step := .evaluator } with hst2
        obtain ⟨fuel, stf, hrun, he, hr⟩ :=
          ih st2 (by simp [hst2]) (by simp [hst2, hst1]; omega) hkpos
        refine ⟨fuel + 1 + 1, stf, ?_, ?_, hr⟩
        · rw [runChain_succ_next maxRetries verdicts (fuel + 1) st st1 hcond hb,
            runChain_succ_next maxRetries verdicts fuel st1 st2
              (by simp [hst1]; omega) hb1, hrun]
        · simp [hst2, hst1] at he; omega

end Clara

namespace Clara

/-- C1 (counterexample): the claim quantifies over all runs in which no
verdict's action is `approve`.  With the unrecognized action `reject`
returned every time, 50 loop iterations make 48 evaluator invocations
(far beyond max_retries + 1 = 4) without ever invoking the report
stage, and retry_count is still 0: the loop does not terminate after
max_retries + 1 evaluator invocations. -/
theorem chain_reject_loops_beyond_budget :
    runChain 3 rejectOracle 50 initState =
      .outOfFuel { retry_count := 0, current_step := .evaluator,
                   evalCalls := 48, behavioralCalls := 1,
                   decisionCalls := 1 } := by
  decide

/-- C1 (amended): whenever every evaluator verdict's action is one of
the recognized revise actions (`revise_profiles`, `revise_decision`,
`revise_terms`) — hence never `approve` — the loop terminates after
exactly max_retries + 1 evaluator invocations and the report stage is
invoked on the last available state (the post-loop fall-through,
encoded by the `false` flag). -/
theorem chain_revise_only_exhausts_and_reports (maxRetries : Nat)
    (verdicts : Nat → String) (hv : ∀ n, verdicts n ∈ reviseActions) :
    ∃ fuel stf, runChain maxRetries verdicts fuel initState = .report stf false ∧
      stf.evalCalls = maxRetries + 1 ∧
      stf.retry_count = maxRetries + 1 := by
  have h0 : loopBody verdicts initState =
      .next { retry_count := 0, current_step := .decision, evalCalls := 0,
              behavioralCalls := 1, decisionCalls := 0 } :=
    loopBody_behavioral verdicts initState rfl
  have h1 : loopBody verdicts
      { retry_count := 0, current_step := .decision, evalCalls := 0,
        behavioralCalls := 1, decisionCalls := 0 } =
      .next { retry_count := 0, current_step := .evaluator, evalCalls := 0,
              behavioralCalls := 1, decisionCalls := 1 } :=
    loopBody_decision verdicts _ rfl
  obtain ⟨fuel, stf, hrun, he, hr⟩ :=
    run_revise_eval maxRetries verdicts hv (maxRetries + 1)
      { retry_count := 0, current_step := .evaluator, evalCalls := 0,
        behavioralCalls := 1, decisionCalls := 1 }
      rfl (by simp) (by omega)
  refine ⟨fuel + 1 + 1, stf, ?_, ?_, hr⟩
  · rw [runChain_succ_next maxRetries verdicts (fuel + 1) initState _
        (by simp [initState]) h0,
      runChain_succ_next maxRetries verdicts fuel _ _ (by simp) h1]
    exact hrun
  · simp at he; omega

/-- C1 (witness): the amended theorem applied to max_retries = 1 and the
constant `revise_terms` oracle. -/
theorem chain_revise_only_exhausts_and_reports_witness :
    (∀ n : Nat, (fun _ : Nat => "revise_terms") n ∈ reviseActions) ∧
    ∃ fuel stf,
      runChain 1 (fun _ => "revise_terms") fuel initState = .report stf false ∧
      stf.evalCalls = 1 + 1 ∧ stf.retry_count = 1 + 1 :=
  ⟨fun _ => by simp [reviseActions],
   chain_revise_only_exhausts_and_reports 1 (fun _ => "revise_terms")
     (fun _ => by simp [reviseActions])⟩

/-- Helper: the evaluator transition on an action outside the four
recognized ones: the elif chain of lines 125-149 is exhausted, so only
the evaluation result is updated — retry_count and current_step keep
their values and the loop re-enters the evaluator step. -/
theorem loopBody_unrecognized (v : Nat → String) (st : ChainState)
    (hstep : st.current_step = .evaluator)
    (ha : v st.evalCalls ∉
      ["approve", "revise_profiles", "revise_decision", "revise_terms"]) :
    loopBody v st = .next { st with evalCalls := st.evalCalls + 1 } := by
  simp only [List.mem_cons, List.mem_singleton, List.not_mem_nil, or_false,
    not_or] at ha
  obtain ⟨h1, h2, h3, h4⟩ := ha
  simp [loopBody, hstep, h1, h2, h3, h4]

/-- C2: the orchestrator does NOT treat an unrecognized verdict as
implicit non-approval.  Whenever every verdict's action lies outside
the recognized set, then from any evaluator-step state within the
retry budget, EVERY fuel bound is exhausted with the loop still at the
evaluator step: each of the `fuel` iterations re-invokes the evaluator
(the eval counter grows by exactly `fuel`) and retry_count,
current_step and the other stage counters never change — no retry is
consumed, no report is produced, for any number of iterations.  This
is the fuel-indexed rendering of: the while-loop spins on the
evaluator forever. -/
theorem chain_unrecognized_action_consumes_no_retry (maxRetries : Nat)
    (verdicts : Nat → String)
    (hv : ∀ n, verdicts n ∉
      ["approve", "revise_profiles", "revise_decision", "revise_terms"]) :
    ∀ fuel st, st.current_step = .evaluator →
      st.retry_count ≤ maxRetries →
      runChain maxRetries verdicts fuel st =
        .outOfFuel { st with evalCalls := st.evalCalls + fuel } := by
  intro fuel
  induction fuel with
  | zero => intro st _ _; simp [runChain]
  | succ fuel ih =>
    intro st hstep hcond
    have hb := loopBody_unrecognized verdicts st hstep (hv st.evalCalls)
    rw [runChain_succ_next maxRetries verdicts fuel st _ hcond hb,
      ih { st with evalCalls := st.evalCalls + 1 } (by simp [hstep]) (by simpa)]
    congr 1
    simp
    omega

/-- C2 (witness): the non-termination theorem applied to the constant
`escalate` oracle, fuel 20, and the evaluator-step state the loop
reaches after its initial behavioral and decision iterations: after 20
more iterations the evaluator has been re-invoked 20 times and
retry_count is still 0, with no report. -/
theorem chain_unrecognized_action_consumes_no_retry_witness :
    (∀ n : Nat, escalateOracle n ∉
      ["approve", "revise_profiles", "revise_decision", "revise_terms"]) ∧
    runChain 3 escalateOracle 20
      { retry_count := 0, current_step := .evaluator, evalCalls := 0,
        behavioralCalls := 1, decisionCalls := 1 } =
      .outOfFuel { retry_count := 0, current_step := .evaluator,
                   evalCalls := 20, behavioralCalls := 1,
                   decisionCalls := 1 } :=
  ⟨fun _ => by simp [escalateOracle],
   chain_unrecognized_action_consumes_no_retry 3 escalateOracle
     (fun _ => by simp [escalateOracle]) 20
     { retry_count := 0, current_step := .evaluator, evalCalls := 0,
       behavioralCalls := 1, decisionCalls := 1 } rfl (by simp)⟩

/-- C3: routing of the cycle that follows an evaluator verdict.  After
a `revise_profiles` verdict the successor state is at the behavioral
step, and the following iteration runs the behavioral stage (its
counter increments, the decision counter does not) and only then moves
to the decision step; after `revise_decision` or `revise_terms` the
successor state is at the decision step, and the following iteration
runs the decision stage directly, without the behavioral stage. -/
theorem chain_verdict_routing (verdicts : Nat → String) (st : ChainState)
    (hstep : st.current_step = .evaluator) :
    (verdicts st.evalCalls = "revise_profiles" →
      ∃ st1 st2, loopBody verdicts st = .next st1 ∧
        st1.current_step = .behavioral ∧
        loopBody verdicts st1 = .next st2 ∧
        st2.behavioralCalls = st1.behavioralCalls + 1 ∧
        st2.decisionCalls = st1.decisionCalls ∧
        st2.current_step = .decision) ∧
    (verdicts st.evalCalls = "revise_decision" ∨
        verdicts st.evalCalls = "revise_terms" →
      ∃ st1 st2, loopBody verdicts st = .next st1 ∧
        st1.current_step = .decision ∧
        loopBody verdicts st1 = .next st2 ∧
        st2.decisionCalls = st1.decisionCalls + 1 ∧
        st2.behavioralCalls = st1.behavioralCalls ∧
        st2.current_step = .evaluator) := by
  constructor
  · intro ha
    refine ⟨_, _, loopBody_revise_profiles verdicts st hstep ha, rfl,
      loopBody_behavioral verdicts _ rfl, rfl, rfl, rfl⟩
  · intro ha
    rcases ha with ha | ha
    · refine ⟨_, _, loopBody_revise_decision verdicts st hstep ha, rfl,
        loopBody_decision verdicts _ rfl, rfl, rfl, rfl⟩
    · refine ⟨_, _, loopBody_revise_terms verdicts st hstep ha, rfl,
        loopBody_decision verdicts _ rfl, rfl, rfl, rfl⟩

/-- C3 (witness): the routing theorem applied to concrete oracles and a
concrete evaluator-step state, once for each kind of revise verdict. -/
theorem chain_verdict_routing_witness :
    (∃ st1 st2,
      loopBody (fun _ => "revise_profiles")
        { retry_count := 0, current_step := .evaluator, evalCalls := 0,
          behavioralCalls := 1, decisionCalls := 1 } = .next st1 ∧
      st1.current_step = .behavioral ∧
      loopBody (fun _ => "revise_profiles") st1 = .next st2 ∧
      st2.behavioralCalls = st1.behavioralCalls + 1 ∧
      st2.decisionCalls = st1.decisionCalls ∧
      st2.current_step = .decision) ∧
    (∃ st1 st2,
      loopBody (fun _ => "revise_terms")
        { retry_count := 0, current_step := .evaluator, evalCalls := 0,
          behavioralCalls := 1, decisionCalls := 1 } = .next st1 ∧
      st1.current_step = .decision ∧
      loopBody (fun _ => "revise_terms") st1 = .next st2 ∧
      st2.decisionCalls = st1.decisionCalls + 1 ∧
      st2.behavioralCalls = st1.behavioralCalls ∧
      st2.current_step = .evaluator) :=
  ⟨(chain_verdict_routing (fun _ => "revise_profiles")
      { retry_count := 0, current_step := .evaluator, evalCalls := 0,
        behavioralCalls := 1, decisionCalls := 1 } rfl).1 rfl,
   (chain_verdict_routing (fun _ => "revise_terms")
      { retry_count := 0, current_step := .evaluator, evalCalls := 0,
        behavioralCalls := 1, decisionCalls := 1 } rfl).2 (Or.inr rfl)⟩

/-- C5: the decision stage ignores every argument and always returns
the same constant record, performing no call to the risk/interest
scorer or the similarity retriever. -/
theorem decide_is_constant :
    ∀ a b c d a' b' c' d',
      decide a b c d = decide a' b' c' d' ∧
      (decide a b c d).1 =
        ⟨"approved", 12/100, 36,
          "7 similar examples in the DB that the loans were approved and they did not default",
          3/10⟩ ∧
      (decide a b c d).2 = [] :=
  fun _ _ _ _ _ _ _ _ => ⟨rfl, rfl, rfl⟩

end Clara

namespace Clara

/-! ## Theorems about the response normalizers -/

/-- C4 (counterexample): the normalizer the pipeline's agents use is
the one of utils.py, which has no fenced-block or balanced-region
strategy: on the spec's fenced example it returns the raw-text wrapper,
not the parsed object `\x7b"a": 1\x7d`. -/
theorem pipeline_normalizer_misses_fenced_json :
    normalize_json (.pyStr fencedExample) =
      .pyDict [("raw_text", .pyStr fencedExample)] ∧
    PyVal.pyDict [("raw_text", .pyStr fencedExample)] ≠
      .pyDict [("a", .pyInt 1)] :=
  ⟨rfl, by simp [fencedExample]⟩

/-- C4 (amended): the four-strategy parsing order belongs to the
normalizer of agent/utils.py (used by the Streamlit app); the
pipeline's agents import the utils.py normalizer, which only attempts
the strict parse before the raw-text fallback.  Concretely: the
agent normalizer parses the fenced example to `\x7b"a": 1\x7d` (strategy 2),
parses a strict JSON string (strategy 1), extracts the first balanced
region out of surrounding prose (strategy 3), and wraps unparseable
text as raw_text (strategy 4); the pipeline normalizer wraps the same
unparseable text the same way. -/
theorem agent_normalizer_strategies :
    normalize_json_agent (.pyStr fencedExample) = .pyDict [("a", .pyInt 1)] ∧
    normalize_json_agent (.pyStr " \x7b\"a\": true\x7d ") =
      .pyDict [("a", .pyBool true)] ∧
    normalize_json_agent (.pyStr "answer: \x7b\"b\": [1, 2]\x7d done") =
      .pyDict [("b", .pyList [.pyInt 1, .pyInt 2])] ∧
    normalize_json_agent (.pyStr "not json at all") =
      .pyDict [("raw_text", .pyStr "not json at all")] ∧
    normalize_json (.pyStr "not json at all") =
      .pyDict [("raw_text", .pyStr "not json at all")] :=
  ⟨rfl, rfl, rfl, rfl, rfl⟩

/-- C10: both normalizers pass any value that is already a dict or a
list through unchanged. -/
theorem normalize_json_identity_on_structured (v : PyVal)
    (h : isDictOrList v = true) :
    normalize_json v = v ∧ normalize_json_agent v = v := by
  cases v <;> simp_all [isDictOrList, normalize_json, normalize_json_agent]

/-- C10 (witness): the identity theorem applied to a concrete dict. -/
theorem normalize_json_identity_on_structured_witness :
    isDictOrList (.pyDict [("k", .pyInt 1)]) = true ∧
    (normalize_json (.pyDict [("k", .pyInt 1)]) = .pyDict [("k", .pyInt 1)] ∧
     normalize_json_agent (.pyDict [("k", .pyInt 1)]) =
       .pyDict [("k", .pyInt 1)]) :=
  ⟨rfl, normalize_json_identity_on_structured (.pyDict [("k", .pyInt 1)]) rfl⟩

end Clara

namespace Clara

/-! ## Theorems about the behavioural feature extraction -/

/-- C6: `last3_category_shares` is computed from card amounts grouped
under the BANK ledger's months via pandas index alignment (line 57
passes `bank_df['date']`, not `card_df['date']`, as the grouping key),
not from the card ledger's own calendar months.  With both card
purchases dated in month 2 but bank rows of the same indices dated in
months 1 and 2, the code spreads the purchases over two months and
averages to A = B = 1/2, whereas grouping the card ledger by its own
months gives A = 1/4, B = 3/4. -/
theorem last3_shares_follow_bank_aligned_months :
    last3_category_shares alignBank alignCard =
      [("A", some (1/2 : ℚ)), ("B", some (1/2 : ℚ))] ∧
    last3_category_shares_claimed alignCard =
      [("A", some (1/4 : ℚ)), ("B", some (3/4 : ℚ))] ∧
    last3_category_shares alignBank alignCard ≠
      last3_category_shares_claimed alignCard := by
  have hm : alignedShareMonths alignBank alignCard = [1, 2] := by decide
  have hc : alignedShareCats alignBank alignCard = ["A", "B"] := by decide
  have f1 : List.filter (fun r => alignedMonth alignBank r.idx == some 1) alignCard
      = [⟨0, 2, "A", 100⟩] := by decide
  have f2 : List.filter (fun r => alignedMonth alignBank r.idx == some 2) alignCard
      = [⟨1, 2, "B", 300⟩] := by decide
  have f1A : List.filter
      (fun r => alignedMonth alignBank r.idx == some 1 && r.category == "A") alignCard
      = [⟨0, 2, "A", 100⟩] := by decide
  have f1B : List.filter
      (fun r => alignedMonth alignBank r.idx == some 1 && r.category == "B") alignCard
      = [] := by decide
  have f2A : List.filter
      (fun r => alignedMonth alignBank r.idx == some 2 && r.category == "A") alignCard
      = [] := by decide
  have f2B : List.filter
      (fun r => alignedMonth alignBank r.idx == some 2 && r.category == "B") alignCard
      = [⟨1, 2, "B", 300⟩] := by decide
  have h1 : last3_category_shares alignBank alignCard =
      [("A", some (1/2 : ℚ)), ("B", some (1/2 : ℚ))] := by
    simp only [last3_category_shares, hm, hc]
    norm_num [alignedShare, alignedRowSum, alignedTotalsEntry, lastN, rqMean,
      f1, f2, f1A, f1B, f2A, f2B, List.filterMap_cons, List.filterMap_nil]
  have hms : sortByLe (fun a b => Decidable.decide (a ≤ b))
      (List.map (fun r => r.month) alignCard).dedup = [2] := by decide
  have hcc : cardCats alignCard = ["A", "B"] := by decide
  have g2 : List.filter (fun r => r.month == 2) alignCard
      = [⟨0, 2, "A", 100⟩, ⟨1, 2, "B", 300⟩] := by decide
  have g2A : List.filter (fun r => r.month == 2 && r.category == "A") alignCard
      = [⟨0, 2, "A", 100⟩] := by decide
  have g2B : List.filter (fun r => r.month == 2 && r.category == "B") alignCard
      = [⟨1, 2, "B", 300⟩] := by decide
  have h2 : last3_category_shares_claimed alignCard =
      [("A", some (1/4 : ℚ)), ("B", some (3/4 : ℚ))] := by
    simp only [last3_category_shares_claimed, hms, hcc]
    norm_num [lastN, rqMean, totalCardSpend, cardSpend, g2, g2A, g2B,
      List.filterMap_cons, List.filterMap_nil]
  refine ⟨h1, h2, ?_⟩
  rw [h1, h2]
  norm_num

/-- C8 (counterexample): the line-73 column filter matches by
substring, so the derived `Entertainment_share` column is summed into
the numerator alongside the `Entertainment` spend column: with a
100-of-200 Entertainment month the code yields
(100 + 1/2) / 200 = 201/400, not the claimed 100 / 200 = 1/2. -/
theorem discretionary_share_counts_share_columns :
    discretionary_share discBank discCard = some (201/400 : ℚ) ∧
    discretionary_share_claimed discBank discCard = some (1/2 : ℚ) ∧
    discretionary_share discBank discCard ≠
      discretionary_share_claimed discBank discCard := by
  have hcats : cardCats discCard = ["Entertainment", "Groceries"] := by decide
  have hk : keptMonths discBank = [1] := by decide
  have hfilter : (dfColumns ["Entertainment", "Groceries"]).filter
      matchesDiscretionary = ["Entertainment", "Entertainment_share"] := by decide
  have hclaimF : (["Entertainment", "Groceries"] : List String).filter
      (fun c => c == "Entertainment" || c == "Travel" || c == "Dining")
      = ["Entertainment"] := by decide
  have hsp : List.filter
      (fun r => r.month == 1 && r.category == "Entertainment") discCard
      = [⟨0, 1, "Entertainment", 100⟩] := by decide
  have htc : List.filter (fun r => r.month == 1) discCard
      = [⟨0, 1, "Entertainment", 100⟩, ⟨1, 1, "Groceries", 100⟩] := by decide
  have h1 : discretionary_share discBank discCard = some (201/400 : ℚ) := by
    simp only [discretionary_share, hcats, hfilter, hk]
    simp [colSum, columnValues, hk, hcats, totalCardSpend, cardSpend,
      catShareLine54, catShareAt, htc, hsp, List.filterMap_cons,
      List.filterMap_nil, List.filter_cons, List.find?] <;> norm_num
  have h2 : discretionary_share_claimed discBank discCard = some (1/2 : ℚ) := by
    simp only [discretionary_share_claimed, hcats, hclaimF]
    simp [colSum, columnValues, hk, hcats, totalCardSpend, cardSpend, htc, hsp,
      List.filterMap_cons, List.filterMap_nil, List.find?] <;> norm_num
  refine ⟨h1, h2, ?_⟩
  rw [h1, h2]
  norm_num

/-- C8 (amended): for ledgers over the standard category names, the
numerator of `discretionary_share` is the sum of the Entertainment,
Travel and Dining spend columns PLUS the corresponding derived
`_share` columns (the substring filter of line 73 matches both), over
the sum of `total_card_spend`. -/
theorem discretionary_share_includes_share_columns
    (bank : List BankRow) (card : List CardRow)
    (hcats : cardCats card = ["Dining", "Entertainment", "Groceries", "Travel"])
    (htot : colSum bank card "total_card_spend" ≠ 0) :
    discretionary_share bank card =
      some ((colSum bank card "Dining" + colSum bank card "Entertainment" +
        colSum bank card "Travel" + colSum bank card "Dining_share" +
        colSum bank card "Entertainment_share" +
        colSum bank card "Travel_share") /
        colSum bank card "total_card_spend") := by
  have hfilter :
      (dfColumns ["Dining", "Entertainment", "Groceries", "Travel"]).filter
        matchesDiscretionary =
      ["Dining", "Entertainment", "Travel", "Dining_share",
        "Entertainment_share", "Travel_share"] := by decide
  simp only [discretionary_share, hcats, hfilter, if_neg htot,
    List.map_cons, List.map_nil, List.sum_cons, List.sum_nil,
    Option.some.injEq]
  ring_nf

/-- C8 (witness): the amended theorem applied to a one-month ledger
over the four standard categories. -/
theorem discretionary_share_includes_share_columns_witness :
    cardCats discCardFull = ["Dining", "Entertainment", "Groceries", "Travel"] ∧
    colSum discBank discCardFull "total_card_spend" ≠ 0 ∧
    discretionary_share discBank discCardFull =
      some ((colSum discBank discCardFull "Dining" +
        colSum discBank discCardFull "Entertainment" +
        colSum discBank discCardFull "Travel" +
        colSum discBank discCardFull "Dining_share" +
        colSum discBank discCardFull "Entertainment_share" +
        colSum discBank discCardFull "Travel_share") /
        colSum discBank discCardFull "total_card_spend") := by
  have hcats : cardCats discCardFull =
      ["Dining", "Entertainment", "Groceries", "Travel"] := by decide
  have hk : keptMonths discBank = [1] := by decide
  have htcf : List.filter (fun r => r.month == 1) discCardFull
      = [⟨0, 1, "Dining", 10⟩, ⟨1, 1, "Entertainment", 20⟩,
         ⟨2, 1, "Groceries", 30⟩, ⟨3, 1, "Travel", 40⟩] := by decide
  have htot : colSum discBank discCardFull "total_card_spend" ≠ 0 := by
    simp [colSum, columnValues, hk, totalCardSpend, htcf,
      List.filterMap_cons, List.filterMap_nil] <;> norm_num
  exact ⟨hcats, htot,
    discretionary_share_includes_share_columns discBank discCardFull hcats htot⟩

/-- C9 (counterexample): in the frame the features are computed from,
a zero-income month carries savings_rate 0 (not NaN) and a
zero-card-spend month carries category share 0 (not NaN): the NaNs
produced at lines 44 and 50 are erased by the whole-frame `fillna(0)`
of line 54 before any feature is read off. -/
theorem nan_ratios_zero_filled_in_final_frame :
    incomeAt zeroIncomeBank 1 = 0 ∧
    totalCardSpend zeroSpendCard 1 = 0 ∧
    savingsRateLine54 zeroIncomeBank 1 = some 0 ∧
    savingsRateLine54 zeroIncomeBank 1 ≠ none ∧
    catShareLine54 zeroSpendCard 1 "A" = some 0 ∧
    catShareLine54 zeroSpendCard 1 "A" ≠ none := by
  have hf1 : List.filter (fun r => r.month == 1) (bankFiltered zeroIncomeBank)
      = [⟨0, 1, 0, 50, 100, ""⟩] := by decide
  have hf2 : List.filter (fun r => r.month == 1) zeroSpendCard
      = [⟨0, 1, "A", 0⟩] := by decide
  have hinc : incomeAt zeroIncomeBank 1 = 0 := by simp [incomeAt, hf1]
  have htot : totalCardSpend zeroSpendCard 1 = 0 := by
    simp [totalCardSpend, hf2]
  refine ⟨hinc, htot, ?_, ?_, ?_, ?_⟩
  · simp [savingsRateLine54, savingsRateAt, hinc]
  · simp [savingsRateLine54]
  · simp [catShareLine54, catShareAt, htot]
  · simp [catShareLine54]

/-- C9 (amended): no zero denominator raises — at computation time a
zero-income month makes savings_rate NaN (line 44) and a
zero-total-spend month makes every category share NaN (line 50) — but
the whole-frame `fillna(0)` of line 54 then replaces those NaNs by 0
in the frame the output features are computed from; only
`cc_payment_ratio`, computed after that fillna, still carries NaN for
a zero-spend month. -/
theorem zero_denominator_ratios (bank : List BankRow) (card : List CardRow)
    (m : Nat) (c : String) (hm : m ∈ keptMonths bank) :
    (incomeAt bank m = 0 →
      savingsRateAt bank m = none ∧ savingsRateLine54 bank m = some 0) ∧
    (totalCardSpend card m = 0 →
      catShareAt card m c = none ∧ catShareLine54 card m c = some 0 ∧
      ccPaymentRatioAt bank card m = none) := by
  constructor
  · intro h
    exact ⟨by simp [savingsRateAt, h],
      by simp [savingsRateLine54, savingsRateAt, h]⟩
  · intro h
    exact ⟨by simp [catShareAt, h],
      by simp [catShareLine54, catShareAt, h],
      by simp [ccPaymentRatioAt, h]⟩

/-- C9 (witness): the amended theorem applied to the concrete
zero-income / zero-spend ledgers at their kept month. -/
theorem zero_denominator_ratios_witness :
    savingsRateAt zeroIncomeBank 1 = none ∧
    savingsRateLine54 zeroIncomeBank 1 = some 0 ∧
    catShareAt zeroSpendCard 1 "A" = none ∧
    catShareLine54 zeroSpendCard 1 "A" = some 0 ∧
    ccPaymentRatioAt zeroIncomeBank zeroSpendCard 1 = none := by
  have hf1 : List.filter (fun r => r.month == 1) (bankFiltered zeroIncomeBank)
      = [⟨0, 1, 0, 50, 100, ""⟩] := by decide
  have hf2 : List.filter (fun r => r.month == 1) zeroSpendCard
      = [⟨0, 1, "A", 0⟩] := by decide
  have hinc : incomeAt zeroIncomeBank 1 = 0 := by simp [incomeAt, hf1]
  have htot : totalCardSpend zeroSpendCard 1 = 0 := by
    simp [totalCardSpend, hf2]
  have T := zero_denominator_ratios zeroIncomeBank zeroSpendCard 1 "A" (by decide)
  exact ⟨(T.1 hinc).1, (T.1 hinc).2, (T.2 htot).1,
    (T.2 htot).2.1, (T.2 htot).2.2⟩

end Clara

namespace Clara

/-! ## Theorems about the risk scorer imputation -/

/-- Helper: on the one-row frame of `risk_assesment`, filling a column
with its own median is the identity — a present value keeps itself, a
missing value is "filled" with the median of an all-NaN column, which
is NaN again. -/
theorem imputeColumnSingle_id (v : Option ℚ) : imputeColumnSingle v = v := by
  cases v <;>
    simp [imputeColumnSingle, fillnaMedian, colMedian, sortByLe, insertByLe]

/-- C7 (counterexample): an unparseable term stays missing through the
imputation step: `parse_term` turns "unknown" into NaN and line 63
leaves it NaN — it is not replaced by any frozen training median (no
median artifact exists in `load_weights`), contradicting the claim
that every missing numeric field is imputed with a training-time
constant. -/
theorem risk_impute_leaves_missing_term_missing :
    parse_term (some "unknown") = none ∧
    (riskImputeRow unknownTermRow).term = none := by
  have hpt : parse_term (some "unknown") = none := by decide
  refine ⟨hpt, ?_⟩
  simp [riskImputeRow, imputeColumnSingle_id, unknownTermRow, hpt]

/-- C7 (amended): line 63 computes the medians from the inference-time
frame itself, and that frame holds the single application row, so the
imputation step is the identity: present values keep themselves and
missing values stay missing (the median of a single-NaN column is
NaN). -/
theorem risk_impute_single_row_identity (r : RiskNumericRow) :
    riskImputeRow r = r := by
  cases r
  simp [riskImputeRow, imputeColumnSingle_id]

/-- C7 (witness): the identity theorem applied to the concrete row
with the unparseable term. -/
theorem risk_impute_single_row_identity_witness :
    riskImputeRow unknownTermRow = unknownTermRow :=
  risk_impute_single_row_identity unknownTermRow

end Clara
